import Mathlib

/-!
Verification development for the QA automation backend
(`backend/pkg/testrunner/runner.go`, `backend/controllers` result controller,
`backend/models`).  The execution flow of `RunTestInBackground` is embedded as
a trace-producing function over an oracle of step outcomes; the result
controller's pagination, export and dispatch handlers are embedded as pure
functions over a relational snapshot.
-/

namespace QA

/-! ## Data model (`backend/models/result.go`, `backend/models` base file)

`ResultRow` carries the columns of `models.Result` together with the names of
the preloaded `Site`/`Device`/`Feature` associations (the Go struct embeds the
associated records; only their `Name` field is ever read by the handlers).
`duration` (float seconds in Go) is opaque to every claim and modelled as a
`Nat`; `createdAt` is an abstract monotone timestamp. -/
structure ResultRow where
  id : Nat
  siteID : Nat
  deviceID : Nat
  featureID : Nat
  status : String
  browser : String
  errorLog : String
  duration : Nat
  createdAt : Nat
  siteName : String
  deviceName : String
  featureName : String
deriving DecidableEq, Repr

/-! ## Execution dispatcher and background task
(`backend/pkg/testrunner/runner.go`, `RunTestInBackground` and the helpers it
calls).

The outcome of every external step (database create, WebDriver call,
screenshot) is an oracle bit in `TaskEnv`; the task body is translated
branch-for-branch from the source into a list of database events.  The `%v`
error detail interpolated into failure messages comes from the external
driver and is abstracted as the fixed placeholder `<error>`. -/
structure TaskEnv where
  createOk : Bool       -- db.Create(&result)
  initOk : Bool         -- runner.Initialize(browserType)
  navLoginOk : Bool     -- runner.NavigateToLoginPage
  loginOk : Bool        -- runner.LoginHandler
  navChatOk : Bool      -- runner.NavigateToChatPage
  navOpenChatOk : Bool  -- runner.NavigateToOpenChat
  sendMsgOk : Bool      -- runner.SendingMessageToChat
  pauseClickOk : Bool   -- pauseVideo: find/click .video-player
  playClickOk : Bool    -- playVideo: find/click .play-button-overlay
  wheelOk : Bool        -- ExecuteScript(simulateWheelEvent ...)
  scrollOk : Bool       -- ExecuteScript(simulateScrollEvent ...)
  shotBeforeLogin : Bool
  shotLoginPage : Bool
  shotAfterLogin : Bool
  shotChatPage : Bool
  shotOpenChat : Bool
  shotSendChat : Bool
  shotPaused : Bool
  shotPlayed : Bool
  shotAfterScroll : Bool
deriving DecidableEq, Repr

/-- Database events emitted by a background task: creating the initial
`Result` row, updating its status (`logError` writes `failed` plus an error
log; the final update writes `passed` and leaves `error_log` untouched,
hence the `Option`), and inserting a `ResultDetail` screenshot row. -/
inductive Ev where
  | createResult (rid : Nat) (status : String)
  | updateResult (rid : Nat) (status : String) (errLog : Option String)
  | createDetail (rid : Nat) (description : String)
deriving DecidableEq, Repr

/-- A screenshot-capturing step: on success one `ResultDetail` row is
inserted; on failure the step is only logged. -/
def detailEv (ok : Bool) (rid : Nat) (description : String) : List Ev :=
  if ok then [Ev.createDetail rid description] else []

def initFailMsg (b : String) : String :=
  "Failed to initialize " ++ b ++ " runner: <error>"

def navLoginFailMsg (b : String) : String :=
  "Failed to navigate to login page using " ++ b ++ ": <error>"

def loginFailMsg (b : String) : String :=
  "Login failed for " ++ b ++ ": <error>"

def chatNavFailMsg (b : String) : String :=
  "Failed to navigate to chat page using " ++ b ++ ": <error>"

def openChatFailMsg (b : String) : String :=
  "Failed to navigate to open chat using " ++ b ++ ": <error>"

def sendChatFailMsg (b : String) : String :=
  "Failed to navigate to send message to chat using " ++ b ++ ": <error>"

def scrollFailMsg : String :=
  "Failed to simulate scroll event: <error>"

/-- The literal `"%s feature has not been implemented yet"` (runner.go, unrecognized
feature branch). -/
def notImplementedMsg (featureName : String) : String :=
  featureName ++ " feature has not been implemented yet"

/-- The database writes of `ChatFunctionality`: navigate to the chat page,
screenshot, open the chat, screenshot, send a message, screenshot.  Every
failing step calls `logError` (an `updateResult _ "failed"` event) and
returns; the Go function's error return is modelled separately as
`chatFunctionalityOk`. -/
def chatFunctionalityEvents (e : TaskEnv) (b : String) (rid : Nat) : List Ev :=
  if e.navChatOk then
    detailEv e.shotChatPage rid "Screenshot of chat page" ++
      (if e.navOpenChatOk then
        detailEv e.shotOpenChat rid "Screenshot of open chat" ++
          (if e.sendMsgOk then
            detailEv e.shotSendChat rid "Screenshot of sending message to chat"
          else [Ev.updateResult rid "failed" (some (sendChatFailMsg b))])
      else [Ev.updateResult rid "failed" (some (openChatFailMsg b))])
  else [Ev.updateResult rid "failed" (some (chatNavFailMsg b))]

/-- Whether `ChatFunctionality` returns a nil error (all three chat steps
succeeded; screenshot failures are only logged). -/
def chatFunctionalityOk (e : TaskEnv) : Bool :=
  e.navChatOk && e.navOpenChatOk && e.sendMsgOk

/-- In `pauseVideo` the find/click errors are returned to the caller but the
caller ignores them; on click success a screenshot detail row is attempted. -/
def pauseVideoEvents (e : TaskEnv) (rid : Nat) : List Ev :=
  if e.pauseClickOk then detailEv e.shotPaused rid "Screenshot of paused video" else []

/-- Likewise `playVideo`: same shape as `pauseVideo`. -/
def playVideoEvents (e : TaskEnv) (rid : Nat) : List Ev :=
  if e.playClickOk then detailEv e.shotPlayed rid "Screenshot of played video" else []

/-- The database writes of `ScrollingHomePage`: on the short-video sites the
(error-ignored) pause/play clicks precede a simulated wheel event; elsewhere
a scroll script runs; a failed script execution calls `logError` and
returns, and success is followed by an after-scroll screenshot detail row. -/
def scrollingHomePageEvents (e : TaskEnv) (siteName : String) (rid : Nat) : List Ev :=
  if siteName = "shorts.senti.live" ∨ siteName = "viblys.com" then
    pauseVideoEvents e rid ++ playVideoEvents e rid ++
      (if e.wheelOk then detailEv e.shotAfterScroll rid "Screenshot after scroll event"
      else [Ev.updateResult rid "failed" (some scrollFailMsg)])
  else
    if e.scrollOk then detailEv e.shotAfterScroll rid "Screenshot after scroll event"
    else [Ev.updateResult rid "failed" (some scrollFailMsg)]

/-- Whether `ScrollingHomePage` returns a nil error (the script execution on
the branch selected by the site name succeeded). -/
def scrollingHomePageOk (e : TaskEnv) (siteName : String) : Bool :=
  if siteName = "shorts.senti.live" ∨ siteName = "viblys.com" then e.wheelOk else e.scrollOk

/-- The per-feature dispatch at the end of the task body: literal string
match on `feature.Name`; on script success the task sleeps and updates the
row to `passed`; on script failure it returns (the script already wrote
`failed`); an unrecognized name writes the not-implemented failure. -/
def featureDispatch (e : TaskEnv) (featureName siteName b : String) (rid : Nat) : List Ev :=
  if featureName = "Chat Functionality" then
    chatFunctionalityEvents e b rid ++
      (if chatFunctionalityOk e then [Ev.updateResult rid "passed" none] else [])
  else if featureName = "Scrolling Home Page" then
    scrollingHomePageEvents e siteName rid ++
      (if scrollingHomePageOk e siteName then [Ev.updateResult rid "passed" none] else [])
  else
    [Ev.updateResult rid "failed" (some (notImplementedMsg featureName))]

/-- One background task (the goroutine body of `RunTestInBackground`): create
the `processing` row, initialize the driver, take the before-login screenshot
(never stored as a detail row), navigate to the login page, screenshot
(stored), log in, screenshot (stored), then dispatch on the feature name.
`rid` is the database-assigned id of the row this task creates. -/
def runTask (e : TaskEnv) (featureName siteName b : String) (rid : Nat) : List Ev :=
  if e.createOk then
    Ev.createResult rid "processing" ::
      (if e.initOk then
        if e.navLoginOk then
          detailEv e.shotLoginPage rid "Screenshot of login page" ++
            (if e.loginOk then
              detailEv e.shotAfterLogin rid "Screenshot after successful login" ++
                featureDispatch e featureName siteName b rid
            else [Ev.updateResult rid "failed" (some (loginFailMsg b))])
        else [Ev.updateResult rid "failed" (some (navLoginFailMsg b))]
      else [Ev.updateResult rid "failed" (some (initFailMsg b))])
  else []

/-- The browser list of `RunTestInBackground`:
`browsers := []string{"chrome"/*, "firefox", "edge", "safari"*/}` — a fixed
constant; the other three profiles are commented out in the source and no
environment flag is consulted. -/
def runTestBrowsers : List String := ["chrome"]

/-- Snapshot of the three reference tables, as (id, name) rows. -/
structure Db where
  sites : List (Nat × String)
  devices : List (Nat × String)
  features : List (Nat × String)
deriving Repr

/-- Lookup `db.First(&x, id)`: resolve an id to the row's name. -/
def lookupName (table : List (Nat × String)) (id : Nat) : Option String :=
  (table.find? (fun p => p.1 = id)).map (fun p => p.2)

/-- Dispatch `RunTestInBackground`: resolve the three ids (returning with no events if
any is missing — the three lookups precede every row creation), then spawn
one task per entry of `runTestBrowsers`.  `envOf`/`ridOf` give each task its
step-outcome oracle and its database-assigned row id. -/
def runTestInBackground (db : Db) (siteID deviceID featureID : Nat)
    (envOf : String → TaskEnv) (ridOf : String → Nat) : List Ev :=
  match lookupName db.sites siteID, lookupName db.devices deviceID,
      lookupName db.features featureID with
  | some siteName, some _deviceName, some featureName =>
      (runTestBrowsers.map (fun b => runTask (envOf b) featureName siteName b (ridOf b))).flatten
  | _, _, _ => []

/-- The HTTP response of `ResultController.Create`. -/
structure CreateResp where
  ok : Bool
  message : String
deriving DecidableEq, Repr

/-- Handler `ResultController.Create`: bind the JSON payload (the three ids carry
`binding:"required"`, so a zero value is rejected with 400), then spawn
`RunTestInBackground` with `go` and immediately answer 200
"Test started in background".  The response never consults the database. -/
def resultCreateHandler (siteID deviceID featureID : Nat) : CreateResp :=
  if siteID = 0 ∨ deviceID = 0 ∨ featureID = 0 then
    { ok := false, message := "binding error" }
  else
    { ok := true, message := "Test started in background" }

/-- The dispatch endpoint as a whole: the synchronous HTTP response paired
with the events of the asynchronously spawned background run (empty when
binding failed, since the goroutine is only spawned after binding). -/
def dispatch (db : Db) (siteID deviceID featureID : Nat)
    (envOf : String → TaskEnv) (ridOf : String → Nat) : CreateResp × List Ev :=
  (resultCreateHandler siteID deviceID featureID,
    if siteID = 0 ∨ deviceID = 0 ∨ featureID = 0 then []
    else runTestInBackground db siteID deviceID featureID envOf ridOf)

/-! ### Trace projections -/

/-- The status updates of a trace, as (row id, new status, error log). -/
def statusUpdates : List Ev → List (Nat × String × Option String)
  | [] => []
  | Ev.updateResult rid st e :: t => (rid, st, e) :: statusUpdates t
  | Ev.createResult _ _ :: t => statusUpdates t
  | Ev.createDetail _ _ :: t => statusUpdates t

/-- The `Result` rows created by a trace, as (row id, initial status). -/
def createdResults : List Ev → List (Nat × String)
  | [] => []
  | Ev.createResult rid st :: t => (rid, st) :: createdResults t
  | Ev.updateResult _ _ _ :: t => createdResults t
  | Ev.createDetail _ _ :: t => createdResults t

/-- The `ResultDetail` rows created by a trace, as (row id, description). -/
def detailEvents : List Ev → List (Nat × String)
  | [] => []
  | Ev.createDetail rid d :: t => (rid, d) :: detailEvents t
  | Ev.createResult _ _ :: t => detailEvents t
  | Ev.updateResult _ _ _ :: t => detailEvents t

/-! ## Paginated result listing (`ResultController.GetResults`) -/

/-- The optional equality filters of the list endpoint. -/
structure ResultFilters where
  siteID : Option Nat
  deviceID : Option Nat
  featureID : Option Nat
  status : Option String
deriving Repr

/-- A row matches when every supplied filter equals the row's column. -/
def matchesFilters (f : ResultFilters) (r : ResultRow) : Bool :=
  (match f.siteID with | some v => r.siteID == v | none => true) &&
  (match f.deviceID with | some v => r.deviceID == v | none => true) &&
  (match f.featureID with | some v => r.featureID == v | none => true) &&
  (match f.status with | some v => r.status == v | none => true)

/-- Ordering `ORDER BY created_at DESC`: newer rows first. -/
def createdDescRel (a b : ResultRow) : Prop := b.createdAt ≤ a.createdAt

instance : DecidableRel createdDescRel := fun a b => Nat.decLe b.createdAt a.createdAt

instance : IsTotal ResultRow createdDescRel :=
  ⟨fun a b => (Nat.le_total b.createdAt a.createdAt).imp id id⟩

instance : IsTrans ResultRow createdDescRel :=
  ⟨fun _ _ _ h h2 => Nat.le_trans h2 h⟩

def sortByCreatedDesc (rs : List ResultRow) : List ResultRow :=
  rs.insertionSort createdDescRel

/-- The expression `int(math.Ceil(float64(total) / float64(limit)))`.  For row counts below
2^53 the float64 division followed by `Ceil` is exact, so the positive-limit
case is the integer ceiling; at `limit = 0` the division yields an infinity
(or NaN when `total = 0`), whose conversion to `int` Go leaves
implementation-defined — modelled as `none`. -/
def goTotalPages (total limit : Nat) : Option Nat :=
  if limit = 0 then none else some ((total + limit - 1) / limit)

/-- The JSON body answered by `GetResults`. -/
structure ResultsPage where
  data : List ResultRow
  total : Nat
  page : Nat
  limit : Nat
  totalPages : Option Nat
deriving Repr

/-- Handler `GetResults`: apply the optional filters, count the matches, then return
the page at offset `(page-1)*limit` of the matches ordered by creation time
descending.  GORM omits a non-positive OFFSET clause, which `Int.toNat`
mirrors for `page = 0`. -/
def getResults (rows : List ResultRow) (f : ResultFilters) (page limit : Nat) : ResultsPage :=
  let filtered := rows.filter (matchesFilters f)
  let offset := (((page : Int) - 1) * (limit : Int)).toNat
  { data := ((sortByCreatedDesc filtered).drop offset).take limit
    total := filtered.length
    page := page
    limit := limit
    totalPages := goTotalPages filtered.length limit }

/-- The handler around `getResults`: the source has no validation branch for
`page` or `limit` (parse failures silently yield 0), so every request reaches
the query and is answered 200. -/
inductive GetResultsResp where
  | ok (p : ResultsPage)
  | badRequest (msg : String)
deriving Repr

def getResultsHandler (rows : List ResultRow) (f : ResultFilters)
    (page limit : Nat) : GetResultsResp :=
  GetResultsResp.ok (getResults rows f page limit)

/-! ## Spreadsheet export (`ResultController.ExportResults`) -/

/-- A spreadsheet cell: the export writes strings and one numeric column. -/
inductive Cell where
  | str (s : String)
  | num (n : Nat)
deriving DecidableEq, Repr

/-- The Go time formatting of `created_at`, abstracted as decimal printing of
the timestamp (injective, order-preserving in the model). -/
def formatTimestamp (t : Nat) : String := toString t

/-- One data row of the export: cells A..H in the fixed source order; a zero
foreign key prints "N/A" in place of the joined name. -/
def exportRow (r : ResultRow) : List Cell :=
  [ Cell.str (formatTimestamp r.createdAt),
    Cell.str r.status,
    Cell.str (if r.siteID ≠ 0 then r.siteName else "N/A"),
    Cell.str r.browser,
    Cell.str (if r.deviceID ≠ 0 then r.deviceName else "N/A"),
    Cell.str (if r.featureID ≠ 0 then r.featureName else "N/A"),
    Cell.num r.duration,
    Cell.str r.errorLog ]

/-- The header row written at row 1. -/
def exportHeaders : List String :=
  ["Created At", "Status", "Site Name", "Browser", "Device Name",
   "Feature Name", "Duration (s)", "Error Log"]

/-- The data rows of the export: all `Result` rows ordered by creation time
descending, one spreadsheet row each (written at rows 2, 3, ...). -/
def exportDataRows (rs : List ResultRow) : List (List Cell) :=
  (sortByCreatedDesc rs).map exportRow

/-! ## Navigation post-conditions (`NavigateToLoginPage`,
`NavigateToChatPage`).

Each navigation issues the page load (`getOk`), for the login page also finds
and clicks the `.login-text` button (`clickOk`), sleeps a fixed settle delay,
then compares the browser's resulting URL against the expected URL with
string equality (`currentURL != "https://"+siteName+...`).  `some msg` is the
returned error, `none` is success. -/
def navigateToLoginPage (siteName : String) (getOk clickOk : Bool)
    (resultURL : String) : Option String :=
  if getOk then
    if clickOk then
      if resultURL = "https://" ++ siteName ++ "/login" then none
      else some ("navigation failed: not on login page, current URL: " ++ resultURL)
    else some "failed to find .login-text button: <error>"
  else some "failed to navigate to login page: <error>"

def navigateToChatPage (siteName : String) (getOk : Bool)
    (resultURL : String) : Option String :=
  if getOk then
    if resultURL = "https://" ++ siteName ++ "/chat" then none
    else some ("navigation failed: not on chat page, current URL: " ++ resultURL)
  else some "failed to navigate to chat page: <error>"

/-! ## Driver teardown (`BrowserStackRunner.Close`)

The remote session is a terminated/live bit; the external WebDriver client's
answer to quitting an already-terminated session is not part of this
repository and is the parameter `deadQuitOk` (the WebDriver wire protocol
answers an invalid-session-id error, i.e. `deadQuitOk = false`).  `Close`
checks only `r.driver != nil`; it never clears the driver reference after a
successful `Quit`. -/
structure Session where
  terminated : Bool
deriving DecidableEq, Repr

structure RunnerState where
  driver : Option Session
deriving DecidableEq, Repr

/-- Teardown `driver.Quit()`: terminates a live session successfully; on an
already-terminated session the outcome is the external client's behavior. -/
def quitSession (deadQuitOk : Bool) (s : Session) : Session × Bool :=
  if s.terminated then (s, deadQuitOk) else ({ terminated := true }, true)

/-- Wrapper `Close`: success without any remote call when the driver was never
initialized; otherwise delegate to `Quit` and keep the driver reference. -/
def closeRunner (deadQuitOk : Bool) (r : RunnerState) : RunnerState × Bool :=
  match r.driver with
  | none => (r, true)
  | some s =>
      let q := quitSession deadQuitOk s
      ({ driver := some q.1 }, q.2)

/-! ## Substring helper (for the "not implemented" error-text claims) -/

/-- Whether the first list is an initial segment of the second. -/
def listStartsWith : List Char → List Char → Bool
  | [], _ => true
  | _ :: _, [] => false
  | a :: as, b :: bs => a == b && listStartsWith as bs

/-- Whether `needle` occurs as a contiguous substring of `hay`. -/
def subStrL (needle : List Char) : List Char → Bool
  | [] => needle.isEmpty
  | c :: t => listStartsWith needle (c :: t) || subStrL needle t

def subStr (needle hay : String) : Bool := subStrL needle.data hay.data

/-! ## Trace-projection lemmas -/

@[simp] theorem statusUpdates_nil : statusUpdates [] = [] := rfl

@[simp] theorem statusUpdates_cons_create (rid : Nat) (st : String) (t : List Ev) :
    statusUpdates (Ev.createResult rid st :: t) = statusUpdates t := rfl

@[simp] theorem statusUpdates_cons_update (rid : Nat) (st : String) (er : Option String)
    (t : List Ev) :
    statusUpdates (Ev.updateResult rid st er :: t) = (rid, st, er) :: statusUpdates t := rfl

@[simp] theorem statusUpdates_cons_detail (rid : Nat) (d : String) (t : List Ev) :
    statusUpdates (Ev.createDetail rid d :: t) = statusUpdates t := rfl

@[simp] theorem statusUpdates_append (l1 l2 : List Ev) :
    statusUpdates (l1 ++ l2) = statusUpdates l1 ++ statusUpdates l2 := by
  induction l1 with
  | nil => simp
  | cons h t ih => cases h <;> simp [ih]

@[simp] theorem createdResults_nil : createdResults [] = [] := rfl

@[simp] theorem createdResults_cons_create (rid : Nat) (st : String) (t : List Ev) :
    createdResults (Ev.createResult rid st :: t) = (rid, st) :: createdResults t := rfl

@[simp] theorem createdResults_cons_update (rid : Nat) (st : String) (er : Option String)
    (t : List Ev) :
    createdResults (Ev.updateResult rid st er :: t) = createdResults t := rfl

@[simp] theorem createdResults_cons_detail (rid : Nat) (d : String) (t : List Ev) :
    createdResults (Ev.createDetail rid d :: t) = createdResults t := rfl

@[simp] theorem createdResults_append (l1 l2 : List Ev) :
    createdResults (l1 ++ l2) = createdResults l1 ++ createdResults l2 := by
  induction l1 with
  | nil => simp
  | cons h t ih => cases h <;> simp [ih]

@[simp] theorem detailEvents_nil : detailEvents [] = [] := rfl

@[simp] theorem detailEvents_cons_create (rid : Nat) (st : String) (t : List Ev) :
    detailEvents (Ev.createResult rid st :: t) = detailEvents t := rfl

@[simp] theorem detailEvents_cons_update (rid : Nat) (st : String) (er : Option String)
    (t : List Ev) :
    detailEvents (Ev.updateResult rid st er :: t) = detailEvents t := rfl

@[simp] theorem detailEvents_cons_detail (rid : Nat) (d : String) (t : List Ev) :
    detailEvents (Ev.createDetail rid d :: t) = (rid, d) :: detailEvents t := rfl

@[simp] theorem detailEvents_append (l1 l2 : List Ev) :
    detailEvents (l1 ++ l2) = detailEvents l1 ++ detailEvents l2 := by
  induction l1 with
  | nil => simp
  | cons h t ih => cases h <;> simp [ih]

@[simp] theorem statusUpdates_detailEv (ok : Bool) (rid : Nat) (d : String) :
    statusUpdates (detailEv ok rid d) = [] := by
  cases ok <;> simp [detailEv]

@[simp] theorem createdResults_detailEv (ok : Bool) (rid : Nat) (d : String) :
    createdResults (detailEv ok rid d) = [] := by
  cases ok <;> simp [detailEv]

@[simp] theorem detailEvents_detailEv (ok : Bool) (rid : Nat) (d : String) :
    detailEvents (detailEv ok rid d) = if ok then [(rid, d)] else [] := by
  cases ok <;> simp [detailEv]

/-- Exactly one `Result` row — in state `processing` — is created by a task
(none when the initial insert itself fails). -/
theorem createdResults_runTask (e : TaskEnv) (f s b : String) (rid : Nat) :
    createdResults (runTask e f s b rid) =
      if e.createOk then [(rid, "processing")] else [] := by
  simp [runTask, featureDispatch, chatFunctionalityEvents, scrollingHomePageEvents,
    pauseVideoEvents, playVideoEvents, apply_ite createdResults]

theorem statusUpdates_chat (e : TaskEnv) (b : String) (rid : Nat) :
    statusUpdates (chatFunctionalityEvents e b rid) =
      if e.navChatOk then
        if e.navOpenChatOk then
          if e.sendMsgOk then []
          else [(rid, "failed", some (sendChatFailMsg b))]
        else [(rid, "failed", some (openChatFailMsg b))]
      else [(rid, "failed", some (chatNavFailMsg b))] := by
  simp [chatFunctionalityEvents, apply_ite statusUpdates]

theorem statusUpdates_scroll (e : TaskEnv) (s : String) (rid : Nat) :
    statusUpdates (scrollingHomePageEvents e s rid) =
      if s = "shorts.senti.live" ∨ s = "viblys.com" then
        if e.wheelOk then [] else [(rid, "failed", some scrollFailMsg)]
      else
        if e.scrollOk then [] else [(rid, "failed", some scrollFailMsg)] := by
  simp [scrollingHomePageEvents, pauseVideoEvents, playVideoEvents, apply_ite statusUpdates]

/-- The status updates a task writes, as an explicit function of the UI-step
outcomes (screenshot outcomes do not occur in it). -/
def taskStatus (e : TaskEnv) (f s b : String) (rid : Nat) :
    List (Nat × String × Option String) :=
  if e.createOk then
    if e.initOk then
      if e.navLoginOk then
        if e.loginOk then
          if f = "Chat Functionality" then
            (if e.navChatOk then
              if e.navOpenChatOk then
                if e.sendMsgOk then []
                else [(rid, "failed", some (sendChatFailMsg b))]
              else [(rid, "failed", some (openChatFailMsg b))]
            else [(rid, "failed", some (chatNavFailMsg b))]) ++
              (if chatFunctionalityOk e then [(rid, "passed", none)] else [])
          else if f = "Scrolling Home Page" then
            (if s = "shorts.senti.live" ∨ s = "viblys.com" then
              if e.wheelOk then [] else [(rid, "failed", some scrollFailMsg)]
            else
              if e.scrollOk then [] else [(rid, "failed", some scrollFailMsg)]) ++
              (if scrollingHomePageOk e s then [(rid, "passed", none)] else [])
          else [(rid, "failed", some (notImplementedMsg f))]
        else [(rid, "failed", some (loginFailMsg b))]
      else [(rid, "failed", some (navLoginFailMsg b))]
    else [(rid, "failed", some (initFailMsg b))]
  else []

theorem statusUpdates_runTask (e : TaskEnv) (f s b : String) (rid : Nat) :
    statusUpdates (runTask e f s b rid) = taskStatus e f s b rid := by
  simp [runTask, taskStatus, featureDispatch, statusUpdates_chat, statusUpdates_scroll,
    apply_ite statusUpdates]

set_option maxHeartbeats 2000000 in
/-- C1.  Every `Result` row created by the execution flow is created in
status `processing`; the task that created it updates its status at most
once; every status update written by the task targets the task's own row and
writes a terminal value (`passed` or `failed`); and a status update only
happens to a row the task created — so nothing moves a row out of its
terminal status afterwards. -/
theorem result_status_lifecycle (e : TaskEnv) (f s b : String) (rid : Nat) :
    (∀ c ∈ createdResults (runTask e f s b rid), c = (rid, "processing")) ∧
    (statusUpdates (runTask e f s b rid)).length ≤ 1 ∧
    (∀ u ∈ statusUpdates (runTask e f s b rid),
      u.1 = rid ∧ (u.2.1 = "passed" ∨ u.2.1 = "failed")) ∧
    (statusUpdates (runTask e f s b rid) ≠ [] →
      createdResults (runTask e f s b rid) = [(rid, "processing")]) := by
  rw [createdResults_runTask, statusUpdates_runTask]
  refine ⟨?_, ?_, ?_, ?_⟩
  · split <;> simp
  · unfold taskStatus
    split_ifs <;> simp_all [chatFunctionalityOk, scrollingHomePageOk]
  · unfold taskStatus
    split_ifs <;> simp_all [chatFunctionalityOk, scrollingHomePageOk]
  · unfold taskStatus
    split_ifs <;> simp_all [chatFunctionalityOk, scrollingHomePageOk]

/-! ## Screenshot independence (C8) and the unimplemented-feature path (C3) -/

/-- Two step oracles that agree on everything except screenshot outcomes. -/
def sameNonShot (e e2 : TaskEnv) : Prop :=
  e.createOk = e2.createOk ∧ e.initOk = e2.initOk ∧ e.navLoginOk = e2.navLoginOk ∧
  e.loginOk = e2.loginOk ∧ e.navChatOk = e2.navChatOk ∧
  e.navOpenChatOk = e2.navOpenChatOk ∧ e.sendMsgOk = e2.sendMsgOk ∧
  e.pauseClickOk = e2.pauseClickOk ∧ e.playClickOk = e2.playClickOk ∧
  e.wheelOk = e2.wheelOk ∧ e.scrollOk = e2.scrollOk

instance (e e2 : TaskEnv) : Decidable (sameNonShot e e2) := by
  unfold sameNonShot; infer_instance

theorem detailEvents_chat_none (e : TaskEnv) (b : String) (rid : Nat)
    (h1 : e.shotChatPage = false) (h2 : e.shotOpenChat = false)
    (h3 : e.shotSendChat = false) :
    detailEvents (chatFunctionalityEvents e b rid) = [] := by
  simp [chatFunctionalityEvents, apply_ite detailEvents, h1, h2, h3]

theorem detailEvents_scroll_none (e : TaskEnv) (s : String) (rid : Nat)
    (h1 : e.shotPaused = false) (h2 : e.shotPlayed = false)
    (h3 : e.shotAfterScroll = false) :
    detailEvents (scrollingHomePageEvents e s rid) = [] := by
  simp [scrollingHomePageEvents, pauseVideoEvents, playVideoEvents,
    apply_ite detailEvents, h1, h2, h3]

set_option maxHeartbeats 1000000 in
/-- C8.  The status updates a task writes are the same under any two oracles
that differ only in screenshot outcomes — a screenshot failure alone never
changes the terminal status — and with every screenshot capture failing, the
task creates no `ResultDetail` row at all (a failed capture only skips its
row). -/
theorem screenshot_failure_never_flips_status (e e2 : TaskEnv) (f s b : String)
    (rid : Nat) (h : sameNonShot e e2) :
    statusUpdates (runTask e f s b rid) = statusUpdates (runTask e2 f s b rid) ∧
    (e.shotLoginPage = false → e.shotAfterLogin = false → e.shotChatPage = false →
      e.shotOpenChat = false → e.shotSendChat = false → e.shotPaused = false →
      e.shotPlayed = false → e.shotAfterScroll = false →
      detailEvents (runTask e f s b rid) = []) := by
  obtain ⟨h1, h2, h3, h4, h5, h6, h7, h8, h9, h10, h11⟩ := h
  constructor
  · rw [statusUpdates_runTask, statusUpdates_runTask]
    unfold taskStatus chatFunctionalityOk scrollingHomePageOk
    rw [h1, h2, h3, h4, h5, h6, h7, h10, h11]
  · intro s1 s2 s3 s4 s5 s6 s7 s8
    simp [runTask, featureDispatch, apply_ite detailEvents, s1, s2,
      detailEvents_chat_none e b rid s3 s4 s5, detailEvents_scroll_none e s rid s6 s7 s8]

/-- An oracle in which every external step succeeds. -/
def envAllOk : TaskEnv :=
  { createOk := true, initOk := true, navLoginOk := true, loginOk := true,
    navChatOk := true, navOpenChatOk := true, sendMsgOk := true,
    pauseClickOk := true, playClickOk := true, wheelOk := true, scrollOk := true,
    shotBeforeLogin := true, shotLoginPage := true, shotAfterLogin := true,
    shotChatPage := true, shotOpenChat := true, shotSendChat := true,
    shotPaused := true, shotPlayed := true, shotAfterScroll := true }

/-- Every UI step succeeds but every screenshot capture fails. -/
def envNoShots : TaskEnv :=
  { createOk := true, initOk := true, navLoginOk := true, loginOk := true,
    navChatOk := true, navOpenChatOk := true, sendMsgOk := true,
    pauseClickOk := true, playClickOk := true, wheelOk := true, scrollOk := true,
    shotBeforeLogin := false, shotLoginPage := false, shotAfterLogin := false,
    shotChatPage := false, shotOpenChat := false, shotSendChat := false,
    shotPaused := false, shotPlayed := false, shotAfterScroll := false }

/-- Witness for C8: a run whose screenshots all fail produces the same status
updates as the identical run whose screenshots all succeed, and no
`ResultDetail` rows. -/
theorem screenshot_failure_never_flips_status_witness :
    sameNonShot envNoShots envAllOk ∧
    (statusUpdates (runTask envNoShots "Chat Functionality" "senti.live" "chrome" 5) =
        statusUpdates (runTask envAllOk "Chat Functionality" "senti.live" "chrome" 5) ∧
      (envNoShots.shotLoginPage = false → envNoShots.shotAfterLogin = false →
        envNoShots.shotChatPage = false → envNoShots.shotOpenChat = false →
        envNoShots.shotSendChat = false → envNoShots.shotPaused = false →
        envNoShots.shotPlayed = false → envNoShots.shotAfterScroll = false →
        detailEvents (runTask envNoShots "Chat Functionality" "senti.live" "chrome" 5) = [])) :=
  ⟨by decide,
    screenshot_failure_never_flips_status envNoShots envAllOk
      "Chat Functionality" "senti.live" "chrome" 5 (by decide)⟩

/-- Counterexample for C3: a dispatched run of the (seeded) feature
"Paywall" — not a recognized script key — ends `failed`, but its error text
"Paywall feature has not been implemented yet" does not contain the
substring "not implemented". -/
theorem unimplemented_text_counterexample :
    statusUpdates (runTask envAllOk "Paywall" "senti.live" "chrome" 7) =
      [(7, "failed", some "Paywall feature has not been implemented yet")] ∧
    subStr "not implemented" "Paywall feature has not been implemented yet" = false := by
  decide

theorem subStrL_append_right (n l1 l2 : List Char) (h : subStrL n l2 = true) :
    subStrL n (l1 ++ l2) = true := by
  induction l1 with
  | nil => simpa using h
  | cons c t ih => simp [subStrL, ih]

/-- C3 as amended.  A run that reaches the feature dispatch (row created,
session initialized, login-page navigation and login succeeded) with a
feature name that is not a recognized script key produces exactly one status
update: `failed` with error text `"<name> feature has not been implemented
yet"` — which contains the substring "not been implemented yet" — and when
the two preceding screenshot captures fail the run needs no `ResultDetail`
row at all. -/
theorem unimplemented_feature_failure (e : TaskEnv) (f s b : String) (rid : Nat)
    (hc : e.createOk = true) (hi : e.initOk = true) (hn : e.navLoginOk = true)
    (hl : e.loginOk = true)
    (hf1 : f ≠ "Chat Functionality") (hf2 : f ≠ "Scrolling Home Page") :
    statusUpdates (runTask e f s b rid) = [(rid, "failed", some (notImplementedMsg f))] ∧
    subStr "not been implemented yet" (notImplementedMsg f) = true ∧
    (e.shotLoginPage = false → e.shotAfterLogin = false →
      detailEvents (runTask e f s b rid) = []) := by
  refine ⟨?_, ?_, ?_⟩
  · rw [statusUpdates_runTask]
    unfold taskStatus
    simp [hc, hi, hn, hl, hf1, hf2]
  · unfold subStr notImplementedMsg
    rw [show (f ++ " feature has not been implemented yet").data =
      f.data ++ (" feature has not been implemented yet").data from rfl]
    exact subStrL_append_right _ _ _ (by decide)
  · intro hs1 hs2
    simp [runTask, featureDispatch, apply_ite detailEvents, hc, hi, hn, hl,
      hf1, hf2, hs1, hs2]

/-- Witness for the amended C3 at the seeded feature "Paywall". -/
theorem unimplemented_feature_failure_witness :
    (envNoShots.createOk = true ∧ envNoShots.initOk = true ∧
      envNoShots.navLoginOk = true ∧ envNoShots.loginOk = true ∧
      "Paywall" ≠ "Chat Functionality" ∧ "Paywall" ≠ "Scrolling Home Page") ∧
    (statusUpdates (runTask envNoShots "Paywall" "senti.live" "chrome" 7) =
        [(7, "failed", some (notImplementedMsg "Paywall"))] ∧
      subStr "not been implemented yet" (notImplementedMsg "Paywall") = true ∧
      (envNoShots.shotLoginPage = false → envNoShots.shotAfterLogin = false →
        detailEvents (runTask envNoShots "Paywall" "senti.live" "chrome" 7) = [])) :=
  ⟨⟨rfl, rfl, rfl, rfl, by decide, by decide⟩,
    unimplemented_feature_failure envNoShots "Paywall" "senti.live" "chrome" 7
      rfl rfl rfl rfl (by decide) (by decide)⟩

/-! ## Dispatch validation (C2) and the browser matrix (C6) -/

/-- A reference-table snapshot holding the ids used by the concrete dispatch
examples. -/
def db0 : Db :=
  { sites := [(1, "senti.live")], devices := [(1, "Desktop")],
    features := [(1, "Chat Functionality")] }

def envOf0 : String → TaskEnv := fun _ => envAllOk

def ridOf0 : String → Nat := fun _ => 1

/-- Counterexample for C2: dispatching with the non-existent site id 42 is
answered 200 "Test started in background" — the validation failure is not
observable in the HTTP response, which is sent before the background lookups
run — although the site lookup indeed fails. -/
theorem dispatch_async_counterexample :
    lookupName db0.sites 42 = none ∧
    (dispatch db0 42 1 1 envOf0 ridOf0).1 =
      { ok := true, message := "Test started in background" } ∧
    createdResults (dispatch db0 42 1 1 envOf0 ridOf0).2 = [] := by
  decide

/-- C2 as amended.  A dispatch whose site, device or feature id does not
resolve creates zero `Result` rows — but the failure is asynchronous: the
HTTP handler answers success ("Test started in background") regardless,
because the id validation runs inside the spawned background task, after the
response is sent. -/
theorem invalid_id_dispatch (db : Db) (siteID deviceID featureID : Nat)
    (envOf : String → TaskEnv) (ridOf : String → Nat)
    (hs : siteID ≠ 0) (hd : deviceID ≠ 0) (hf : featureID ≠ 0)
    (hmiss : lookupName db.sites siteID = none ∨
      lookupName db.devices deviceID = none ∨
      lookupName db.features featureID = none) :
    (dispatch db siteID deviceID featureID envOf ridOf).1 =
      { ok := true, message := "Test started in background" } ∧
    createdResults (dispatch db siteID deviceID featureID envOf ridOf).2 = [] := by
  have hempty : runTestInBackground db siteID deviceID featureID envOf ridOf = [] := by
    unfold runTestInBackground
    split
    · rcases hmiss with h | h | h <;> simp_all
    · rfl
  constructor
  · simp [dispatch, resultCreateHandler, hs, hd, hf]
  · simp [dispatch, hs, hd, hf, hempty]

/-- Witness for the amended C2 at the concrete snapshot `db0`. -/
theorem invalid_id_dispatch_witness :
    ((42 : Nat) ≠ 0 ∧ (1 : Nat) ≠ 0 ∧
      (lookupName db0.sites 42 = none ∨ lookupName db0.devices 1 = none ∨
        lookupName db0.features 1 = none)) ∧
    ((dispatch db0 42 1 1 envOf0 ridOf0).1 =
        { ok := true, message := "Test started in background" } ∧
      createdResults (dispatch db0 42 1 1 envOf0 ridOf0).2 = []) :=
  ⟨⟨by decide, by decide, Or.inl (by decide)⟩,
    invalid_id_dispatch db0 42 1 1 envOf0 ridOf0 (by decide) (by decide) (by decide)
      (Or.inl (by decide))⟩

/-- Counterexample for C6: the browser list of the dispatcher is the fixed
constant `["chrome"]` — no environment flag is consulted — so a valid
dispatch spawns exactly one task (one `Result` row), never the four-browser
matrix. -/
theorem browser_matrix_counterexample :
    runTestBrowsers = ["chrome"] ∧
    "firefox" ∉ runTestBrowsers ∧
    createdResults (runTestInBackground db0 1 1 1 envOf0 ridOf0) = [(1, "processing")] :=
  ⟨rfl, by decide, by decide⟩

/-- C6 as amended.  Every valid dispatch spawns exactly the single chrome
task: the browser list is hard-coded to `["chrome"]` (firefox, edge and
safari are commented out in the source) and no environment mode flag exists
in the execution flow. -/
theorem single_browser_dispatch (db : Db) (siteID deviceID featureID : Nat)
    (envOf : String → TaskEnv) (ridOf : String → Nat) (sn dn fn : String)
    (hs : lookupName db.sites siteID = some sn)
    (hd : lookupName db.devices deviceID = some dn)
    (hf : lookupName db.features featureID = some fn) :
    runTestInBackground db siteID deviceID featureID envOf ridOf =
      runTask (envOf "chrome") fn sn "chrome" (ridOf "chrome") := by
  unfold runTestInBackground
  rw [hs, hd, hf]
  simp [runTestBrowsers]

/-- Witness for the amended C6 at the concrete snapshot `db0`. -/
theorem single_browser_dispatch_witness :
    (lookupName db0.sites 1 = some "senti.live" ∧
      lookupName db0.devices 1 = some "Desktop" ∧
      lookupName db0.features 1 = some "Chat Functionality") ∧
    runTestInBackground db0 1 1 1 envOf0 ridOf0 =
      runTask (envOf0 "chrome") "Chat Functionality" "senti.live" "chrome"
        (ridOf0 "chrome") :=
  ⟨⟨by decide, by decide, by decide⟩,
    single_browser_dispatch db0 1 1 1 envOf0 ridOf0 "senti.live" "Desktop"
      "Chat Functionality" (by decide) (by decide) (by decide)⟩

/-! ## Navigation post-condition (C7) -/

/-- Counterexample for C7: a resulting URL that strictly extends the
expected login URL ("https://senti.live/login?next=%2F" extends
"https://senti.live/login") is rejected by `NavigateToLoginPage` — the
source compares with string equality, not a prefix match. -/
theorem navigation_extension_rejected_counterexample :
    listStartsWith ("https://senti.live/login").data
      ("https://senti.live/login?next=%2F").data = true ∧
    navigateToLoginPage "senti.live" true true
      "https://senti.live/login?next=%2F" ≠ none := by
  decide

/-- C7 as amended.  When the page load (and, for the login page, the button
click) succeeds, a navigation operation succeeds if and only if the
resulting URL is exactly equal to the expected URL; any other URL — even one
extending the expected URL — yields a navigation error. -/
theorem navigation_exact_url_check (siteName url : String) :
    (navigateToLoginPage siteName true true url = none ↔
      url = "https://" ++ siteName ++ "/login") ∧
    (navigateToChatPage siteName true url = none ↔
      url = "https://" ++ siteName ++ "/chat") := by
  constructor
  · unfold navigateToLoginPage
    by_cases h : url = "https://" ++ siteName ++ "/login" <;> simp [h]
  · unfold navigateToChatPage
    by_cases h : url = "https://" ++ siteName ++ "/chat" <;> simp [h]

/-! ## Driver teardown (C9) -/

/-- A runner whose session was initialized and is still live. -/
def liveRunner : RunnerState := { driver := some { terminated := false } }

/-- Counterexample for C9: under the WebDriver wire protocol (quitting an
already-terminated session answers an error), a second `Close` after a
successful `Close` of a live session returns an error — `Close` never
clears the driver reference, so it re-issues `Quit` — although the session
state is unchanged. -/
theorem close_not_idempotent_counterexample :
    (closeRunner false liveRunner).2 = true ∧
    (closeRunner false (closeRunner false liveRunner).1).2 = false ∧
    (closeRunner false (closeRunner false liveRunner).1).1 =
      (closeRunner false liveRunner).1 := by
  decide

/-- C9 as amended.  After a successful `Close`, a second `Close` leaves the
state unchanged, but it returns success exactly when the driver was never
initialized or the external client's `Quit` succeeds on an
already-terminated session (`dq`): the repository's own code guarantees
idempotence only for the never-initialized state. -/
theorem close_second_call (dq : Bool) (r : RunnerState)
    (h : (closeRunner dq r).2 = true) :
    (closeRunner dq (closeRunner dq r).1).1 = (closeRunner dq r).1 ∧
    ((closeRunner dq (closeRunner dq r).1).2 = true ↔
      (r.driver = none ∨ dq = true)) := by
  rcases r with ⟨_ | s⟩
  · simp [closeRunner]
  · rcases s with ⟨t⟩
    cases t <;> cases dq <;> simp_all [closeRunner, quitSession]

/-- Witness for the amended C9 at a live session with the WebDriver-protocol
behavior for dead-session quits. -/
theorem close_second_call_witness :
    (closeRunner false liveRunner).2 = true ∧
    ((closeRunner false (closeRunner false liveRunner).1).1 =
        (closeRunner false liveRunner).1 ∧
      ((closeRunner false (closeRunner false liveRunner).1).2 = true ↔
        (liveRunner.driver = none ∨ false = true))) :=
  ⟨by decide, close_second_call false liveRunner (by decide)⟩

/-! ## Pagination (C4, C10) and export (C5) -/

theorem ceilDiv_bounds (T limit : Nat) (hl : 0 < limit) :
    T ≤ ((T + limit - 1) / limit) * limit ∧
    ((T + limit - 1) / limit) * limit < T + limit := by
  have hdm := Nat.div_add_mod (T + limit - 1) limit
  have hmod : (T + limit - 1) % limit < limit := Nat.mod_lt _ hl
  set q := (T + limit - 1) / limit with hq
  set r := (T + limit - 1) % limit with hr
  have h2 : q * limit = limit * q := Nat.mul_comm q limit
  omega

/-- C4.  For a list request with positive page and limit: `total` is the
count of the rows matching the filters; the data is the contiguous slice of
the filtered rows — ordered by creation time descending — starting at offset
`(page-1)*limit`, of length at most `limit`; and `total_pages` is the least
number of pages covering `total` rows (the integer ceiling of
`total/limit`, characterized by the two bounds). -/
theorem paginated_list (rows : List ResultRow) (f : ResultFilters) (page limit : Nat)
    (hp : 1 ≤ page) (hl : 1 ≤ limit) :
    (getResults rows f page limit).total = (rows.filter (matchesFilters f)).length ∧
    (getResults rows f page limit).data =
      ((sortByCreatedDesc (rows.filter (matchesFilters f))).drop
        ((page - 1) * limit)).take limit ∧
    (getResults rows f page limit).data.length ≤ limit ∧
    ∃ q, (getResults rows f page limit).totalPages = some q ∧
      (rows.filter (matchesFilters f)).length ≤ q * limit ∧
      q * limit < (rows.filter (matchesFilters f)).length + limit := by
  have hoff : (((page : Int) - 1) * (limit : Int)).toNat = (page - 1) * limit := by
    rw [show ((page : Int) - 1) = ((page - 1 : Nat) : Int) by omega]
    rw [← Int.natCast_mul, Int.toNat_natCast]
  refine ⟨rfl, ?_, ?_, ?_⟩
  · simp only [getResults, hoff]
  · simp only [getResults, List.length_take]
    exact Nat.min_le_left _ _
  · have hne : limit ≠ 0 := by omega
    obtain ⟨h1, h2⟩ := ceilDiv_bounds (rows.filter (matchesFilters f)).length limit hl
    exact ⟨_, by simp [getResults, goTotalPages, hne], h1, h2⟩

/-- A row shape for the concrete pagination instance: id `i`, created at
time `i`. -/
def mkRow (i : Nat) : ResultRow :=
  { id := i, siteID := 1, deviceID := 1, featureID := 1, status := "passed",
    browser := "chrome", errorLog := "", duration := 0, createdAt := i,
    siteName := "senti.live", deviceName := "Desktop",
    featureName := "Chat Functionality" }

/-- Twenty-five rows created at times 1..25. -/
def rows25 : List ResultRow := (List.range 25).map (fun i => mkRow (i + 1))

def noFilters : ResultFilters :=
  { siteID := none, deviceID := none, featureID := none, status := none }

/-- Witness for C4: with `limit = 10`, `page = 2` over 25 rows the page
holds the 11th..20th newest rows (creation times 15 down to 6), `total = 25`
and `total_pages = 3`. -/
theorem paginated_list_witness :
    (1 ≤ 2 ∧ 1 ≤ 10) ∧
    ((getResults rows25 noFilters 2 10).total =
        (rows25.filter (matchesFilters noFilters)).length ∧
      (getResults rows25 noFilters 2 10).data =
        ((sortByCreatedDesc (rows25.filter (matchesFilters noFilters))).drop
          ((2 - 1) * 10)).take 10 ∧
      (getResults rows25 noFilters 2 10).data.length ≤ 10 ∧
      ∃ q, (getResults rows25 noFilters 2 10).totalPages = some q ∧
        (rows25.filter (matchesFilters noFilters)).length ≤ q * 10 ∧
        q * 10 < (rows25.filter (matchesFilters noFilters)).length + 10) ∧
    ((getResults rows25 noFilters 2 10).total = 25 ∧
      (getResults rows25 noFilters 2 10).totalPages = some 3 ∧
      (getResults rows25 noFilters 2 10).data =
        [mkRow 15, mkRow 14, mkRow 13, mkRow 12, mkRow 11, mkRow 10, mkRow 9,
          mkRow 8, mkRow 7, mkRow 6]) :=
  ⟨⟨by decide, by decide⟩,
    paginated_list rows25 noFilters 2 10 (by decide) (by decide),
    by decide⟩

/-- C10.  The list handler never rejects `limit = 0` or `page = 0` (there is
no validation branch: it always answers 200 with the computed page), and at
`limit = 0` the unguarded `total/limit` float division makes the reported
`total_pages` a non-finite value — not the ceiling of `total/limit` for any
meaningful definition (`none` in the model: no finite value is reported). -/
theorem zero_limit_division (rows : List ResultRow) (f : ResultFilters) (page : Nat) :
    getResultsHandler rows f page 0 = GetResultsResp.ok (getResults rows f page 0) ∧
    (getResults rows f page 0).totalPages = none ∧
    (∀ q, (getResults rows f page 0).totalPages ≠ some q) ∧
    (∀ limit, getResultsHandler rows f 0 limit =
      GetResultsResp.ok (getResults rows f 0 limit)) := by
  refine ⟨rfl, ?_, ?_, fun _ => rfl⟩
  · simp [getResults, goTotalPages]
  · simp [getResults, goTotalPages]

/-- C5.  The export emits exactly one data row per `Result` row (the rows it
walks are a permutation of the table), in descending creation-time order,
and every data row has exactly 8 cells in the fixed column order (timestamp,
status, site, browser, device, feature, duration, error). -/
theorem export_shape (rs : List ResultRow) :
    (exportDataRows rs).length = rs.length ∧
    (∀ row ∈ exportDataRows rs, row.length = 8) ∧
    (sortByCreatedDesc rs).Perm rs ∧
    List.Pairwise (fun a b => b.createdAt ≤ a.createdAt) (sortByCreatedDesc rs) ∧
    (∀ r : ResultRow,
      (exportRow r)[0]? = some (Cell.str (formatTimestamp r.createdAt)) ∧
      (exportRow r)[1]? = some (Cell.str r.status) ∧
      (exportRow r)[3]? = some (Cell.str r.browser) ∧
      (exportRow r)[6]? = some (Cell.num r.duration) ∧
      (exportRow r)[7]? = some (Cell.str r.errorLog)) ∧
    exportHeaders.length = 8 := by
  refine ⟨?_, ?_, List.perm_insertionSort createdDescRel rs,
    List.sorted_insertionSort createdDescRel rs, ?_, rfl⟩
  · simp [exportDataRows, sortByCreatedDesc,
      (List.perm_insertionSort createdDescRel rs).length_eq]
  · intro row hrow
    obtain ⟨r, _, hr⟩ := List.mem_map.mp hrow
    rw [← hr]
    rfl
  · exact fun r => ⟨rfl, rfl, rfl, rfl, rfl⟩

/-! ## Concrete instantiations of the universally quantified claims -/

/-- Witness for C1 at a concrete chat run. -/
theorem result_status_lifecycle_witness :
    (∀ c ∈ createdResults (runTask envAllOk "Chat Functionality" "senti.live" "chrome" 3),
      c = (3, "processing")) ∧
    (statusUpdates (runTask envAllOk "Chat Functionality" "senti.live" "chrome" 3)).length ≤ 1 ∧
    (∀ u ∈ statusUpdates (runTask envAllOk "Chat Functionality" "senti.live" "chrome" 3),
      u.1 = 3 ∧ (u.2.1 = "passed" ∨ u.2.1 = "failed")) ∧
    (statusUpdates (runTask envAllOk "Chat Functionality" "senti.live" "chrome" 3) ≠ [] →
      createdResults (runTask envAllOk "Chat Functionality" "senti.live" "chrome" 3) =
        [(3, "processing")]) :=
  result_status_lifecycle envAllOk "Chat Functionality" "senti.live" "chrome" 3

/-- Witness for C5 at the concrete 25-row table. -/
theorem export_shape_witness :
    (exportDataRows rows25).length = rows25.length ∧
    (∀ row ∈ exportDataRows rows25, row.length = 8) ∧
    (sortByCreatedDesc rows25).Perm rows25 ∧
    List.Pairwise (fun a b => b.createdAt ≤ a.createdAt) (sortByCreatedDesc rows25) ∧
    (∀ r : ResultRow,
      (exportRow r)[0]? = some (Cell.str (formatTimestamp r.createdAt)) ∧
      (exportRow r)[1]? = some (Cell.str r.status) ∧
      (exportRow r)[3]? = some (Cell.str r.browser) ∧
      (exportRow r)[6]? = some (Cell.num r.duration) ∧
      (exportRow r)[7]? = some (Cell.str r.errorLog)) ∧
    exportHeaders.length = 8 :=
  export_shape rows25

/-- Witness for the amended C7 at a matching and a non-matching URL. -/
theorem navigation_exact_url_check_witness :
    ((navigateToLoginPage "senti.live" true true "https://senti.live/login" = none ↔
        "https://senti.live/login" = "https://" ++ "senti.live" ++ "/login") ∧
      (navigateToChatPage "senti.live" true "https://senti.live/login" = none ↔
        "https://senti.live/login" = "https://" ++ "senti.live" ++ "/chat")) :=
  navigation_exact_url_check "senti.live" "https://senti.live/login"

/-- Witness for C10 at the concrete 25-row table with `limit = 0`. -/
theorem zero_limit_division_witness :
    getResultsHandler rows25 noFilters 2 0 =
      GetResultsResp.ok (getResults rows25 noFilters 2 0) ∧
    (getResults rows25 noFilters 2 0).totalPages = none ∧
    (∀ q, (getResults rows25 noFilters 2 0).totalPages ≠ some q) ∧
    (∀ limit, getResultsHandler rows25 noFilters 0 limit =
      GetResultsResp.ok (getResults rows25 noFilters 0 limit)) :=
  zero_limit_division rows25 noFilters 2

end QA
